import Mathlib

/-!
Verification of the FFI bridge of `application-services`:
the marshaling contract (`IntoFfi`), the error slot (`ExternError`),
the call orchestration point (`call_with_result_impl`), the `places`
destructors, and the `Guid` compact identifier type.

Modeling conventions:
- raw C pointers that may be null are modeled as `Option` values, with
  `none` standing for the null pointer;
- the callback passed to the bridge is modeled by its observable outcome:
  it returns `Ok`, returns `Err`, or raises a panic carrying a message;
- the bridge is modeled as a pure function producing a trace: the ordered
  list of writes to the caller-owned error slot, the returned boundary
  value (`none` when the process aborted instead of returning), and
  whether a panic was logged;
- Rust strings are modeled as Lean `String` at the boundary, and as byte
  lists (`List Nat`) inside `Guid`, where the code operates on bytes.
-/

/-- Modelled from the spec: the `ExternError` error slot type from the
repository file `error.rs`, which is not included under `src/`.
The spec describes it as `{ code : integer (0 = success, nonzero =
domain-specific, one reserved value = "internal fault was caught"),
message : optional owned text, present only when code != 0 }`. -/
structure ExternError where
  code : Int
  message : Option String
deriving DecidableEq

/-- Modelled from the spec: `success()` is the neutral, no-error state;
code 0 and no message. -/
def ExternError.success : ExternError := ⟨0, none⟩

/-- Modelled from the spec: the reserved code marking an internal fault
that was caught. The spec fixes only that it is a single reserved nonzero
value; the conventional value is -1. -/
def ExternError.panicCode : Int := -1

/-- Modelled from the spec: `from_fault(description)` builds the slot
value for a contained internal fault, using the reserved fault code and a
best-effort description carrying the panic message. -/
def ExternError.fromPanic (msg : String) : ExternError :=
  ⟨ExternError.panicCode, some msg⟩

/-- Modelled from the spec: the `Default` value of `ExternError`, written
to the slot on the success path; the spec requires the slot to stay in
the success state there, so the default is `success()`. -/
def ExternError.default : ExternError := ExternError.success

/-- The per-type marshal contract `IntoFfi` from `into_ffi.rs`: a
boundary representation `V` of the Rust type `R`, a default value
returned on failure paths, and the conversion into the boundary value.
Modeled as an explicit dictionary rather than a typeclass. -/
structure IntoFfi (R : Type) (V : Type) where
  ffi_default : V
  into_ffi_value : R → V

/-- `IntoFfi` for primitives (`impl_into_ffi_for_primitive`): the value
maps to itself and the default is the zero value of the type. Instance
for `u32`, with the unsigned 32-bit scalars modeled as `Nat`. -/
def u32IntoFfi : IntoFfi Nat Nat := ⟨0, fun v => v⟩

/-- `IntoFfi` for `String`: boundary type `*mut c_char` (modeled as
`Option String`, `none` being the null pointer); the default is the null
pointer and a value is moved to an owned C string. -/
def stringIntoFfi : IntoFfi String (Option String) :=
  ⟨none, fun s => some s⟩

/-- `IntoFfi` for `Option T` from `into_ffi.rs`: same boundary type as
`T`; `None` falls back to the `ffi_default` of `T`, `Some s` marshals
`s`, and the default is the default of `T`. -/
def optionIntoFfi {T V : Type} (inst : IntoFfi T V) : IntoFfi (Option T) V :=
  ⟨inst.ffi_default, fun o =>
    match o with
    | some s => inst.into_ffi_value s
    | none => inst.ffi_default⟩

/-- JSON encoding of a sequence, as produced by `serde_json::to_string`
on a `Vec`: the encodings of the elements joined by commas, between
square brackets, with no whitespace. -/
def jsonEncodeList {T : Type} (enc : T → String) (l : List T) : String :=
  "[" ++ String.intercalate "," (l.map enc) ++ "]"

/-- JSON encoding of an unsigned 32-bit integer (`serde_json` renders
integers in decimal). -/
def jsonEncodeU32 (n : Nat) : String := toString n

/-- `IntoFfi` for `Vec T` where `T` is `IntoFfiJsonTag` (the JSON-opt-in
marker), from `into_ffi.rs`: boundary type `*mut c_char`; the default is
the null pointer, and a vector is serialized with `serde_json` into one
owned text buffer. Parameterized by the JSON encoding of the element
type. -/
def vecJsonIntoFfi {T : Type} (enc : T → String) : IntoFfi (List T) (Option String) :=
  ⟨none, fun l => some (jsonEncodeList enc l)⟩

/-- The observable outcome of the `FnOnce() -> Result<R, E>` callback
handed to the bridge: a success value, a domain error, or a panic
carrying a message. -/
inductive CallbackResult (R E : Type) where
  | ok (r : R)
  | err (e : E)
  | panicked (msg : String)

/-- The observable trace of one bridged call: the ordered writes to the
caller-owned `out_error` slot, the boundary value handed back (`none`
when the process aborted instead of returning), and whether a caught
panic was logged. -/
structure CallTrace (V : Type) where
  slotWrites : List ExternError
  returned : Option V
  loggedPanic : Bool
deriving DecidableEq

/-- The slot state the caller observes after the call: the last write. -/
def finalSlot {V : Type} (t : CallTrace V) : Option ExternError :=
  t.slotWrites.getLast?

/-- `call_with_result_impl` from `lib.rs`. It first writes
`ExternError::success()` to `out_error`; then runs the callback inside
`panic::catch_unwind`. On `Ok(v)` the closure yields
`(ExternError::default(), v.into_ffi_value())`; on `Err(e)` it yields
`(e.into(), R::ffi_default())`; either pair is then written to the slot
and the value returned. On a caught panic, the panic is logged, then if
`abort_on_panic` the process aborts (no further slot write, no return),
otherwise the panic payload is converted to an `ExternError`, written to
the slot, and `R::ffi_default()` is returned. The caller-supplied
`Into<ExternError>` conversion of `E` is the explicit `errMap`. -/
def call_with_result_impl {R V E : Type} (inst : IntoFfi R V)
    (errMap : E → ExternError) (callback : CallbackResult R E)
    (abortOnPanic : Bool) : CallTrace V :=
  match callback with
  | .ok v =>
    { slotWrites := [ExternError.success, ExternError.default]
      returned := some (inst.into_ffi_value v)
      loggedPanic := false }
  | .err e =>
    { slotWrites := [ExternError.success, errMap e]
      returned := some inst.ffi_default
      loggedPanic := false }
  | .panicked msg =>
    if abortOnPanic then
      { slotWrites := [ExternError.success]
        returned := none
        loggedPanic := true }
    else
      { slotWrites := [ExternError.success, ExternError.fromPanic msg]
        returned := some inst.ffi_default
        loggedPanic := true }

/-- `call_with_result` from `lib.rs`: the default-mode bridge,
`call_with_result_impl` with `abort_on_panic = false`. -/
def call_with_result {R V E : Type} (inst : IntoFfi R V)
    (errMap : E → ExternError) (callback : CallbackResult R E) : CallTrace V :=
  call_with_result_impl inst errMap callback false

/-- `abort_on_panic::call_with_result` from `lib.rs`: the abort-mode
bridge, `call_with_result_impl` with `abort_on_panic = true`. -/
def abortOnPanic_call_with_result {R V E : Type} (inst : IntoFfi R V)
    (errMap : E → ExternError) (callback : CallbackResult R E) : CallTrace V :=
  call_with_result_impl inst errMap callback true

/-- A concrete caller-supplied domain-error mapping, sending the single
error of a one-error domain to code 3 with message "not found". -/
def notFoundMap : Unit → ExternError := fun _ => ⟨3, some "not found"⟩

/-- A heap of live allocations, each identified by its address. Used to
give meaning to the `places` destructors: freeing removes the address,
freeing an address that is not live is undefined caller misuse, modeled
as a fault. -/
abbrev Heap : Type := List Nat

/-- `places_destroy_string` from the `places` FFI `lib.rs`: destroy a
string allocated by this library. The pointer may be null (`none`); the
code checks `!s.is_null()` and only then reclaims the allocation, so
null performs no deallocation and cannot fault. -/
def places_destroy_string (s : Option Nat) (heap : Heap) : Except String Heap :=
  match s with
  | none => .ok heap
  | some a =>
    if a ∈ heap then .ok (List.erase heap a) else .error "invalid free"

/-- `places_connection_destroy` from the `places` FFI `lib.rs`: destroy
a connection allocated by `places_connection_new`. The pointer may be
null (`none`); the code checks `!obj.is_null()` and only then drops the
box, so null performs no deallocation and cannot fault. -/
def places_connection_destroy (obj : Option Nat) (heap : Heap) : Except String Heap :=
  match obj with
  | none => .ok heap
  | some a =>
    if a ∈ heap then .ok (List.erase heap a) else .error "invalid free"

/-- The `BASE64URL_BYTES` table from the `guid` crate: entry `b` is 1
exactly when byte `b` is a base64url character (digits, ASCII letters,
`-` and `_`). Transcribed row for row from the source. -/
def BASE64URL_BYTES : List Nat :=
  [0, 0, 0, 0, 0, 0, 0, 0, 0, 0, 0, 0, 0, 0, 0, 0,
   0, 0, 0, 0, 0, 0, 0, 0, 0, 0, 0, 0, 0, 0, 0, 0,
   0, 0, 0, 0, 0, 0, 0, 0, 0, 0, 0, 0, 0, 1, 0, 0,
   1, 1, 1, 1, 1, 1, 1, 1, 1, 1, 0, 0, 0, 0, 0, 0,
   0, 1, 1, 1, 1, 1, 1, 1, 1, 1, 1, 1, 1, 1, 1, 1,
   1, 1, 1, 1, 1, 1, 1, 1, 1, 1, 1, 0, 0, 0, 0, 1,
   0, 1, 1, 1, 1, 1, 1, 1, 1, 1, 1, 1, 1, 1, 1, 1,
   1, 1, 1, 1, 1, 1, 1, 1, 1, 1, 1, 0, 0, 0, 0, 0,
   0, 0, 0, 0, 0, 0, 0, 0, 0, 0, 0, 0, 0, 0, 0, 0,
   0, 0, 0, 0, 0, 0, 0, 0, 0, 0, 0, 0, 0, 0, 0, 0,
   0, 0, 0, 0, 0, 0, 0, 0, 0, 0, 0, 0, 0, 0, 0, 0,
   0, 0, 0, 0, 0, 0, 0, 0, 0, 0, 0, 0, 0, 0, 0, 0,
   0, 0, 0, 0, 0, 0, 0, 0, 0, 0, 0, 0, 0, 0, 0, 0,
   0, 0, 0, 0, 0, 0, 0, 0, 0, 0, 0, 0, 0, 0, 0, 0,
   0, 0, 0, 0, 0, 0, 0, 0, 0, 0, 0, 0, 0, 0, 0, 0,
   0, 0, 0, 0, 0, 0, 0, 0, 0, 0, 0, 0, 0, 0, 0, 0]

/-- The internal representation of a `Guid` (`enum Repr` in the `guid`
crate): a 12-byte inline array for strings passing the base64url check,
or a heap-allocated string otherwise. Byte strings are modeled as
`List Nat`; the Rust fast path copies the 12 source bytes into the
array, so the stored bytes are exactly the source bytes. -/
inductive GuidRepr where
  | fast (bytes : List Nat)
  | slow (s : List Nat)
deriving DecidableEq

/-- The `Guid` type from the `guid` crate. -/
structure Guid where
  repr : GuidRepr
deriving DecidableEq

/-- `Guid::can_use_fast`: true when the byte string has length 12 and
every byte is a base64url character per `BASE64URL_BYTES`. -/
def Guid.can_use_fast (bytes : List Nat) : Bool :=
  bytes.length == 12 && bytes.all (fun b => BASE64URL_BYTES.getD b 0 == 1)

/-- `Guid::from_str`: build a `Guid` from a string (given by its bytes).
When `can_use_fast` holds, the 12 bytes are copied into the inline
array; otherwise the string is stored on the heap. -/
def Guid.from_str (s : List Nat) : Guid :=
  if Guid.can_use_fast s then ⟨GuidRepr.fast s⟩ else ⟨GuidRepr.slow s⟩

/-- `Guid::as_str`: read the `Guid` back as a string (given by its
bytes). The fast arm re-decodes the stored bytes with
`str::from_utf8(bytes).unwrap()`; the stored bytes are base64url ASCII,
for which UTF-8 decoding returns exactly those bytes. -/
def Guid.as_str (g : Guid) : List Nat :=
  match g.repr with
  | GuidRepr.fast bytes => bytes
  | GuidRepr.slow s => s

/-- C1: on `Ok(r)` the bridge leaves the error slot in the success state
(code 0) and returns the marshaled boundary value of `r`; in particular
an operation returning the unsigned 32-bit value 5 yields slot code 0
and boundary value 5. -/
theorem call_with_result_ok_spec {R V E : Type} (inst : IntoFfi R V)
    (errMap : E → ExternError) (r : R) :
    (call_with_result inst errMap (CallbackResult.ok r)).returned
        = some (inst.into_ffi_value r) ∧
    finalSlot (call_with_result inst errMap (CallbackResult.ok r))
        = some ExternError.success ∧
    ExternError.success.code = 0 ∧
    (call_with_result u32IntoFfi notFoundMap (CallbackResult.ok 5)).returned
        = some 5 :=
  ⟨rfl, rfl, rfl, rfl⟩

/-- C2: on `Err(e)` the bridge sets the error slot through the
caller-supplied domain mapping and returns the `ffi_default` of the
declared return type; in particular an error mapped to code 3, message
"not found" yields that slot value and the default boundary value. -/
theorem call_with_result_err_spec {R V E : Type} (inst : IntoFfi R V)
    (errMap : E → ExternError) (e : E) :
    (call_with_result inst errMap (CallbackResult.err e)).returned
        = some inst.ffi_default ∧
    finalSlot (call_with_result inst errMap (CallbackResult.err e))
        = some (errMap e) ∧
    finalSlot (call_with_result u32IntoFfi notFoundMap (CallbackResult.err ()))
        = some ⟨3, some "not found"⟩ ∧
    (call_with_result u32IntoFfi notFoundMap (CallbackResult.err ())).returned
        = some u32IntoFfi.ffi_default :=
  ⟨rfl, rfl, rfl, rfl⟩

/-- C3: in default mode a panic raised by the operation is contained:
the call still returns, the slot is set to the reserved fault code with
a description carrying the panic message, the fault is logged, and the
value returned is the `ffi_default` of the declared return type; in
particular a panic with message "divide by zero" yields the slot value
with the reserved code and that message. -/
theorem call_with_result_panic_spec {R V E : Type} (inst : IntoFfi R V)
    (errMap : E → ExternError) (msg : String) :
    (call_with_result inst errMap (CallbackResult.panicked msg)).returned
        = some inst.ffi_default ∧
    finalSlot (call_with_result inst errMap (CallbackResult.panicked msg))
        = some (ExternError.fromPanic msg) ∧
    (ExternError.fromPanic msg).code = ExternError.panicCode ∧
    (ExternError.fromPanic msg).message = some msg ∧
    (call_with_result inst errMap (CallbackResult.panicked msg)).loggedPanic = true ∧
    finalSlot (call_with_result u32IntoFfi notFoundMap
        (CallbackResult.panicked "divide by zero"))
        = some ⟨ExternError.panicCode, some "divide by zero"⟩ :=
  ⟨rfl, rfl, rfl, rfl, rfl, rfl⟩

/-- C4: in abort mode a panic raised by the operation terminates the
process immediately: the call does not return (no boundary value is
produced) and no fault code is written to the slot, whose only write
remains the initial `success()`. -/
theorem abort_call_with_result_panic_spec {R V E : Type} (inst : IntoFfi R V)
    (errMap : E → ExternError) (msg : String) :
    (abortOnPanic_call_with_result inst errMap (CallbackResult.panicked msg)).returned
        = none ∧
    (abortOnPanic_call_with_result inst errMap (CallbackResult.panicked msg)).slotWrites
        = [ExternError.success] ∧
    (abortOnPanic_call_with_result inst errMap (CallbackResult.panicked msg)).loggedPanic
        = true :=
  ⟨rfl, rfl, rfl⟩

/-- C5 counterexample: the bridge does not write the error slot exactly
once per returning call; a successful call writes it twice (once with
`success()` before the operation runs, once with the outcome after). -/
theorem slot_written_once_counterexample :
    (call_with_result u32IntoFfi notFoundMap (CallbackResult.ok 5)).slotWrites.length
        ≠ 1 := by
  decide

/-- C5 (amended): every returning call in default mode writes the
caller-owned slot exactly twice, the first write being `success()`
before the operation runs and the second the outcome. -/
theorem slot_written_twice {R V E : Type} (inst : IntoFfi R V)
    (errMap : E → ExternError) (cb : CallbackResult R E) :
    (call_with_result inst errMap cb).slotWrites.length = 2 ∧
    (call_with_result inst errMap cb).slotWrites.head? = some ExternError.success := by
  cases cb <;> exact ⟨rfl, rfl⟩

/-- C6 counterexample: an execution path can return the declared type's
default value while the slot is in the success state: an operation
returning `Ok(None)` through the `Option` marshal yields the default
boundary value 0 together with a success slot. -/
theorem outcome_agreement_counterexample :
    (call_with_result (optionIntoFfi u32IntoFfi) notFoundMap
        (CallbackResult.ok (none : Option Nat))).returned
        = some ((optionIntoFfi u32IntoFfi).ffi_default) ∧
    finalSlot (call_with_result (optionIntoFfi u32IntoFfi) notFoundMap
        (CallbackResult.ok (none : Option Nat)))
        = some ExternError.success :=
  ⟨rfl, rfl⟩

/-- C6 (amended): the agreement holds in one direction only: whenever
the final slot state is not success, the returned value is the declared
type's `ffi_default`; the success path returns the marshaled value,
which may itself coincide with the default. -/
theorem nonsuccess_slot_returns_default {R V E : Type} (inst : IntoFfi R V)
    (errMap : E → ExternError) (cb : CallbackResult R E)
    (h : finalSlot (call_with_result inst errMap cb) ≠ some ExternError.success) :
    (call_with_result inst errMap cb).returned = some inst.ffi_default := by
  cases cb with
  | ok v => exact absurd rfl h
  | err e => rfl
  | panicked m => rfl

/-- C6 witness: the amended agreement at a concrete input: a domain
error mapped to code 3 leaves a non-success slot and the default value
is returned. -/
theorem nonsuccess_slot_returns_default_witness :
    (call_with_result u32IntoFfi notFoundMap (CallbackResult.err ())).returned
        = some u32IntoFfi.ffi_default :=
  nonsuccess_slot_returns_default u32IntoFfi notFoundMap (CallbackResult.err ())
    (by decide)

/-- C7: `Option T` marshals to the boundary representation of `T`:
`Some v` converts to the boundary value of `v`, `None` converts to the
`ffi_default` of `T`, and the `ffi_default` of `Option T` equals the
`ffi_default` of `T`. -/
theorem option_into_ffi_spec {T V : Type} (inst : IntoFfi T V) (v : T) :
    (optionIntoFfi inst).into_ffi_value (some v) = inst.into_ffi_value v ∧
    (optionIntoFfi inst).into_ffi_value none = inst.ffi_default ∧
    (optionIntoFfi inst).ffi_default = inst.ffi_default :=
  ⟨rfl, rfl, rfl⟩

/-- C8: `Vec T` for a JSON-tagged element type marshals to one owned
text buffer holding the JSON encoding of the sequence, with the null
pointer as default; in particular the sequence [1, 2, 3] of an integer
type produces exactly the text "[1,2,3]". -/
theorem vec_json_into_ffi_spec {T : Type} (enc : T → String) (l : List T) :
    (vecJsonIntoFfi enc).ffi_default = none ∧
    (vecJsonIntoFfi enc).into_ffi_value l = some (jsonEncodeList enc l) ∧
    (vecJsonIntoFfi jsonEncodeU32).into_ffi_value [1, 2, 3] = some "[1,2,3]" := by
  refine ⟨rfl, rfl, ?_⟩
  decide

/-- C9: both exposed destructors accept a possibly-null pointer and
treat null as a no-op: called on the null pointer they perform no
deallocation (the heap is unchanged) and never fault. -/
theorem destructors_null_noop (heap : Heap) :
    places_destroy_string none heap = Except.ok heap ∧
    places_connection_destroy none heap = Except.ok heap :=
  ⟨rfl, rfl⟩

/-- C10: building a `Guid` from any string and reading it back is the
identity, whether the string is stored in the inline 12-byte
representation or in the heap-allocated fallback. -/
theorem guid_from_str_as_str_roundtrip (s : List Nat) :
    (Guid.from_str s).as_str = s := by
  unfold Guid.from_str
  split <;> rfl
